import Mathlib

/-!
# The `mcp-publisher` command router (`cmd/publisher/main.go`)

A shallow embedding of `main`, `printCommandHelp` and `printUsage`.

* The process is observed through the ordered trace of what `main` itself does
  (writes to standard output, writes to standard error, a record handed to the
  standard logger, a call of one of the four subcommands) and the exit code.
* The subcommands live in the `commands` package; `main` only sees the `error`
  each of them returns, so they are taken as parameters (`Commands`).
* `Version`, `GitCommit` and `BuildTime` are link-time variables, taken as a
  parameter (`BuildInfo`) whose defaults are the values written in the source.
* Go strings are compared with ASCII literals only, so `String` equality stands
  for Go's `==`; `os.Args` may be of any length, the empty vector included.
-/

namespace Publisher

/-- A non-nil Go `error`, observed through the text `%v` prints for it. -/
structure GoError where
  msg : String
deriving DecidableEq, Repr

/-- One call from `main` into the `commands` package, with the arguments it passes. -/
inductive Call where
  | InitCommand : Call
  | LoginCommand (args : List String) : Call
  | LogoutCommand : Call
  | PublishCommand (args : List String) : Call
deriving DecidableEq, Repr

/-- One observable action of `main`: a write to `os.Stdout`, a write to
`os.Stderr`, a message given to `log.Printf` (the standard logger stamps it with
the time and writes it to standard error), or a call into package `commands`. -/
inductive Event where
  | stdout (s : String) : Event
  | stderr (s : String) : Event
  | log (s : String) : Event
  | call (c : Call) : Event
deriving DecidableEq, Repr

/-- The `error` results of the four functions of package `commands`
(`none` is Go's `nil`). -/
structure Commands where
  InitCommand : Option GoError
  LoginCommand : List String → Option GoError
  LogoutCommand : Option GoError
  PublishCommand : List String → Option GoError

/-- The package-level variables `Version`, `BuildTime`, `GitCommit`. -/
structure BuildInfo where
  Version : String := "dev"
  BuildTime : String := "unknown"
  GitCommit : String := "unknown"

/-- What a run of `main` leaves behind: its trace and the process exit code. -/
structure Outcome where
  events : List Event
  exitCode : Nat

/-- `fmt.Fprintln(os.Stdout, s)`: the operand followed by a newline. -/
def Fprintln (s : String) : Event := Event.stdout (s ++ "\n")

/-- `fmt.Fprintln(os.Stdout)`: an empty line. -/
def FprintlnEmpty : Event := Event.stdout "\n"

/-- `printUsage` (main.go:141-154). -/
def printUsage : List Event :=
  [ Fprintln "MCP Registry Publisher Tool",
    FprintlnEmpty,
    Fprintln "Usage:",
    Fprintln "  mcp-publisher <command> [arguments]",
    FprintlnEmpty,
    Fprintln "Commands:",
    Fprintln "  init          Create a server.json file template",
    Fprintln "  login         Authenticate with the registry",
    Fprintln "  logout        Clear saved authentication",
    Fprintln "  publish       Publish server.json to the registry",
    FprintlnEmpty,
    Fprintln "Use 'mcp-publisher <command> --help' for more information about a command." ]

/-- `printCommandHelp` (main.go:71-139). -/
def printCommandHelp (command : String) : List Event :=
  if command = "init" then
    [ Fprintln "Usage: mcp-publisher init",
      FprintlnEmpty,
      Fprintln "Description:",
      Fprintln "  Create a server.json file template in the current directory.",
      Fprintln "  This template includes all required and optional fields for",
      Fprintln "  publishing your MCP server to the registry.",
      FprintlnEmpty,
      Fprintln "Example:",
      Fprintln "  mcp-publisher init",
      FprintlnEmpty,
      Fprintln "The generated server.json file should be customized with your",
      Fprintln "server's specific details before publishing." ]
  else if command = "login" then
    [ Fprintln "Usage: mcp-publisher login <method>",
      FprintlnEmpty,
      Fprintln "Description:",
      Fprintln "  Authenticate with the registry using one of the supported",
      Fprintln "  authentication methods. Authentication is required before",
      Fprintln "  you can publish servers to the registry.",
      FprintlnEmpty,
      Fprintln "Available Methods:",
      Fprintln "  github-at        - GitHub Personal Access Token",
      Fprintln "  github-oidc      - GitHub OIDC (for CI/CD environments)",
      Fprintln "  http             - HTTP-based authentication",
      Fprintln "  dns              - DNS-based authentication",
      Fprintln "  none             - No authentication (for testing)",
      FprintlnEmpty,
      Fprintln "Example:",
      Fprintln "  mcp-publisher login github-at",
      FprintlnEmpty,
      Fprintln "Credentials are securely stored locally for subsequent publishes." ]
  else if command = "logout" then
    [ Fprintln "Usage: mcp-publisher logout",
      FprintlnEmpty,
      Fprintln "Description:",
      Fprintln "  Clear saved authentication credentials from the local system.",
      Fprintln "  This removes all stored authentication tokens and sessions.",
      FprintlnEmpty,
      Fprintln "Example:",
      Fprintln "  mcp-publisher logout",
      FprintlnEmpty,
      Fprintln "After logging out, you will need to run 'mcp-publisher login'",
      Fprintln "again before publishing." ]
  else if command = "publish" then
    [ Fprintln "Usage: mcp-publisher publish [options]",
      FprintlnEmpty,
      Fprintln "Description:",
      Fprintln "  Publish your MCP server to the registry using the server.json",
      Fprintln "  file in the current directory. You must be authenticated before",
      Fprintln "  publishing (see 'mcp-publisher login').",
      FprintlnEmpty,
      Fprintln "Options:",
      Fprintln "  --file <path>    - Specify a custom path to server.json",
      Fprintln "  --dry-run        - Validate the server.json without publishing",
      FprintlnEmpty,
      Fprintln "Example:",
      Fprintln "  mcp-publisher publish",
      Fprintln "  mcp-publisher publish --file ./my-server.json",
      Fprintln "  mcp-publisher publish --dry-run",
      FprintlnEmpty,
      Fprintln "The server.json file must conform to the registry schema.",
      Fprintln "Run 'mcp-publisher init' to generate a template." ]
  else
    printUsage

/-- The tail of `main` (main.go:65-69): report a non-nil `err` on standard
error and exit 1, otherwise fall off the end of `main` (exit 0). -/
def finish (c : Call) (err : Option GoError) : Outcome :=
  match err with
  | some e => ⟨[Event.call c, Event.stderr ("Error: " ++ e.msg ++ "\n")], 1⟩
  | none => ⟨[Event.call c], 0⟩

/-- `main` (main.go:24-69) run on the argument vector `osArgs` (`os.Args`,
program name first). -/
def main (b : BuildInfo) (cs : Commands) (osArgs : List String) : Outcome :=
  if h : osArgs.length < 2 then
    ⟨printUsage, 1⟩
  else
    have h1 : 1 < osArgs.length := by omega
    let cmd := osArgs[1]
    let args := osArgs.drop 2
    if cmd = "--version" ∨ cmd = "-v" ∨ cmd = "version" then
      ⟨[Event.log ("mcp-publisher " ++ b.Version ++ " (commit: " ++ b.GitCommit ++
          ", built: " ++ b.BuildTime ++ ")")], 0⟩
    else if cmd = "--help" ∨ cmd = "-h" ∨ cmd = "help" then
      ⟨printUsage, 0⟩
    else if 0 < args.length ∧
        (args.head? = some "--help" ∨ args.head? = some "-h" ∨ args.head? = some "help") then
      ⟨printCommandHelp cmd, 0⟩
    else if cmd = "init" then
      finish Call.InitCommand cs.InitCommand
    else if cmd = "login" then
      finish (Call.LoginCommand args) (cs.LoginCommand args)
    else if cmd = "logout" then
      finish Call.LogoutCommand cs.LogoutCommand
    else if cmd = "publish" then
      finish (Call.PublishCommand args) (cs.PublishCommand args)
    else
      ⟨Event.stderr ("Unknown command: " ++ cmd ++ "\n\n") :: printUsage, 1⟩

/-! ## Observations on a trace -/

/-- The subcommand calls recorded in a trace, in order. -/
def calls : List Event → List Call
  | [] => []
  | Event.call c :: es => c :: calls es
  | _ :: es => calls es

/-- Everything the trace writes to standard output, concatenated. -/
def stdoutText : List Event → List Char
  | [] => []
  | Event.stdout s :: es => s.data ++ stdoutText es
  | _ :: es => stdoutText es

/-- Everything the trace writes directly to standard error, concatenated. -/
def stderrText : List Event → List Char
  | [] => []
  | Event.stderr s :: es => s.data ++ stderrText es
  | _ :: es => stderrText es

/-- The text up to the first newline. -/
def firstLine (t : List Char) : List Char := t.takeWhile (fun ch => ch != '\n')

/-- The lines of a text in which every line ends in a newline. -/
def splitLines : List Char → List (List Char)
  | [] => []
  | ch :: t =>
    if ch = '\n' then [] :: splitLines t
    else
      match splitLines t with
      | [] => [[ch]]
      | l :: ls => (ch :: l) :: ls

/-- The lines a trace writes to standard output, each without its newline. -/
def outputLines (es : List Event) : List String :=
  (splitLines (stdoutText es)).map String.mk

/-- The lines that follow the line `header`, up to the next empty line. -/
def sectionAfter (header : List Char) (ls : List (List Char)) : List (List Char) :=
  ((ls.dropWhile (fun l => l != header)).drop 1).takeWhile (fun l => l != [])

/-- The first blank-delimited word of a line. -/
def firstWord (l : List Char) : String :=
  String.mk ((l.dropWhile (fun ch => ch == ' ')).takeWhile (fun ch => ch != ' '))

/-- The method names listed under "Available Methods:" by `printCommandHelp "login"`:
the first word of each line of that section. -/
def loginHelpMethods : List String :=
  (sectionAfter "Available Methods:".data
    (splitLines (stdoutText (printCommandHelp "login")))).map firstWord

/-- The error a recorded call returned. -/
def Commands.run (cs : Commands) : Call → Option GoError
  | Call.InitCommand => cs.InitCommand
  | Call.LoginCommand args => cs.LoginCommand args
  | Call.LogoutCommand => cs.LogoutCommand
  | Call.PublishCommand args => cs.PublishCommand args

/-- The four subcommand verbs of the `switch` in `main`. -/
def verbs : List String := ["init", "login", "logout", "publish"]

/-- The tokens of the global version/help test (main.go:34, 38). -/
def globalTokens : List String := ["--version", "-v", "version", "--help", "-h", "help"]

/-- The tokens of the per-command help test (main.go:44). -/
def helpTokens : List String := ["--help", "-h", "help"]

/-- The fixed set of authentication method names, as the specification lists it:
"{github-at, github-oidc, http, dns, none}". -/
def specAuthMethods : List String := ["github-at", "github-oidc", "http", "dns", "none"]

/-- Subcommands that all succeed. -/
def okCommands : Commands := ⟨none, fun _ => none, none, fun _ => none⟩

/-- Subcommands of which `login` fails with "no token" and `publish` with
"not authenticated". -/
def failingCommands : Commands :=
  ⟨none, fun _ => some ⟨"no token"⟩, none, fun _ => some ⟨"not authenticated"⟩⟩

/-! ## Structure of `main` -/

theorem calls_printUsage : calls printUsage = [] := by
  simp [printUsage, calls, Fprintln, FprintlnEmpty]

theorem calls_printCommandHelp (command : String) : calls (printCommandHelp command) = [] := by
  unfold printCommandHelp
  split_ifs <;> simp [printUsage, calls, Fprintln, FprintlnEmpty]

theorem mem_calls {c : Call} {es : List Event} : c ∈ calls es ↔ Event.call c ∈ es := by
  induction es with
  | nil => simp [calls]
  | cons e es ih =>
    cases e <;> simp [calls, ih]

/-- With fewer than two elements in the argument vector `main` prints the usage and exits 1. -/
theorem main_short (b : BuildInfo) (cs : Commands) (osArgs : List String)
    (h : osArgs.length < 2) : main b cs osArgs = ⟨printUsage, 1⟩ := by
  simp [main, h]

/-- The body of `main` once the argument vector is known to be `prog :: cmd :: args`. -/
theorem main_cons (b : BuildInfo) (cs : Commands) (prog cmd : String) (args : List String) :
    main b cs (prog :: cmd :: args) =
      if cmd = "--version" ∨ cmd = "-v" ∨ cmd = "version" then
        ⟨[Event.log ("mcp-publisher " ++ b.Version ++ " (commit: " ++ b.GitCommit ++
            ", built: " ++ b.BuildTime ++ ")")], 0⟩
      else if cmd = "--help" ∨ cmd = "-h" ∨ cmd = "help" then
        ⟨printUsage, 0⟩
      else if 0 < args.length ∧
          (args.head? = some "--help" ∨ args.head? = some "-h" ∨ args.head? = some "help") then
        ⟨printCommandHelp cmd, 0⟩
      else if cmd = "init" then
        finish Call.InitCommand cs.InitCommand
      else if cmd = "login" then
        finish (Call.LoginCommand args) (cs.LoginCommand args)
      else if cmd = "logout" then
        finish Call.LogoutCommand cs.LogoutCommand
      else if cmd = "publish" then
        finish (Call.PublishCommand args) (cs.PublishCommand args)
      else
        ⟨Event.stderr ("Unknown command: " ++ cmd ++ "\n\n") :: printUsage, 1⟩ := by
  simp [main]

/-- An argument vector is either shorter than two or of the form `prog :: cmd :: args`. -/
theorem osArgs_cases (osArgs : List String) :
    osArgs.length < 2 ∨ ∃ prog cmd args, osArgs = prog :: cmd :: args := by
  rcases osArgs with _ | ⟨p, _ | ⟨c, a⟩⟩
  · left; simp
  · left; simp
  · right; exact ⟨p, c, a, rfl⟩

theorem calls_finish (c : Call) (err : Option GoError) : calls (finish c err).events = [c] := by
  cases err <;> simp [finish, calls]

/-- The next argument is a help token exactly when the guard of main.go:44 holds. -/
theorem help_guard_iff (args : List String) :
    (0 < args.length ∧
        (args.head? = some "--help" ∨ args.head? = some "-h" ∨ args.head? = some "help")) ↔
      ∃ a, args.head? = some a ∧ a ∈ helpTokens := by
  cases args with
  | nil => simp
  | cons a t => simp [helpTokens, eq_comm]

/-- Every subcommand call that `main` makes is the one its `switch` selects, and
then the run is the call followed by the shared tail of `main`. -/
theorem main_call_inv (b : BuildInfo) (cs : Commands) (osArgs : List String) (c : Call)
    (hc : Event.call c ∈ (main b cs osArgs).events) :
    ∃ prog cmd args, osArgs = prog :: cmd :: args ∧ cmd ∉ globalTokens ∧
      (¬ ∃ a, args.head? = some a ∧ a ∈ helpTokens) ∧
      ((cmd = "init" ∧ c = Call.InitCommand) ∨ (cmd = "login" ∧ c = Call.LoginCommand args) ∨
        (cmd = "logout" ∧ c = Call.LogoutCommand) ∨
        (cmd = "publish" ∧ c = Call.PublishCommand args)) ∧
      main b cs osArgs = finish c (cs.run c) := by
  rcases osArgs_cases osArgs with h | ⟨prog, cmd, args, rfl⟩
  · rw [main_short b cs osArgs h] at hc
    have := mem_calls.mpr hc
    simp [calls_printUsage] at this
  · refine ⟨prog, cmd, args, rfl, ?_⟩
    rw [← mem_calls, main_cons] at hc
    rw [main_cons, ← help_guard_iff]
    split_ifs at hc ⊢ with h1 h2 h3 h4 h5 h6 h7
    · simp [calls] at hc
    · simp [calls_printUsage] at hc
    · simp [calls_printCommandHelp] at hc
    · simp only [calls_finish, List.mem_singleton] at hc
      subst hc
      simp_all [globalTokens, Commands.run]
    · simp only [calls_finish, List.mem_singleton] at hc
      subst hc
      simp_all [globalTokens, Commands.run]
    · simp only [calls_finish, List.mem_singleton] at hc
      subst hc
      simp_all [globalTokens, Commands.run]
    · simp only [calls_finish, List.mem_singleton] at hc
      subst hc
      simp_all [globalTokens, Commands.run]
    · simp [calls, calls_printUsage] at hc

/-! ## The command-line contract -/

/-- C1 (as stated, refuted): the command `foo` is none of the verbs and none of
the global tokens, yet `mcp-publisher foo --help` exits with code 0. -/
theorem unknown_command_help_exits_zero :
    "foo" ∉ verbs ∧ "foo" ∉ globalTokens ∧
      (main {} okCommands ["mcp-publisher", "foo", "--help"]).exitCode = 0 := by
  decide

/-- C1 (amended): for an unrecognized command (none of the verbs, none of the
global tokens) `main` reports "Unknown command", prints the usage and exits with
code 1, unless the argument right after the command is one of `--help`, `-h`,
`help`; then it prints the general usage on standard output and exits with code 0. -/
theorem unknown_command_exit_code (b : BuildInfo) (cs : Commands) (prog cmd : String)
    (args : List String) (hv : cmd ∉ verbs) (hg : cmd ∉ globalTokens) :
    ((¬ ∃ a, args.head? = some a ∧ a ∈ helpTokens) →
        (main b cs (prog :: cmd :: args)).exitCode = 1 ∧
        (main b cs (prog :: cmd :: args)).events =
          Event.stderr ("Unknown command: " ++ cmd ++ "\n\n") :: printUsage) ∧
    ((∃ a, args.head? = some a ∧ a ∈ helpTokens) →
        (main b cs (prog :: cmd :: args)).exitCode = 0 ∧
        (main b cs (prog :: cmd :: args)).events = printUsage) := by
  have hv1 : ¬ cmd = "init" := fun h => hv (by simp [verbs, h])
  have hv2 : ¬ cmd = "login" := fun h => hv (by simp [verbs, h])
  have hv3 : ¬ cmd = "logout" := fun h => hv (by simp [verbs, h])
  have hv4 : ¬ cmd = "publish" := fun h => hv (by simp [verbs, h])
  have hg1 : ¬ (cmd = "--version" ∨ cmd = "-v" ∨ cmd = "version") := by
    intro h; apply hg; rcases h with h | h | h <;> simp [globalTokens, h]
  have hg2 : ¬ (cmd = "--help" ∨ cmd = "-h" ∨ cmd = "help") := by
    intro h; apply hg; rcases h with h | h | h <;> simp [globalTokens, h]
  rw [main_cons, ← help_guard_iff, if_neg hg1, if_neg hg2]
  constructor
  · intro hn
    rw [if_neg hn, if_neg hv1, if_neg hv2, if_neg hv3, if_neg hv4]
    exact ⟨rfl, rfl⟩
  · intro hy
    rw [if_pos hy]
    refine ⟨rfl, ?_⟩
    show printCommandHelp cmd = printUsage
    unfold printCommandHelp
    rw [if_neg hv1, if_neg hv2, if_neg hv3, if_neg hv4]

theorem unknown_command_exit_code_witness :
    "deploy" ∉ verbs ∧ "deploy" ∉ globalTokens ∧
      (main {} okCommands ["mcp-publisher", "deploy", "now"]).exitCode = 1 ∧
      (main {} okCommands ["mcp-publisher", "deploy", "-h"]).exitCode = 0 :=
  ⟨by decide, by decide,
    ((unknown_command_exit_code {} okCommands "mcp-publisher" "deploy" ["now"]
      (by decide) (by decide)).1 (by decide)).1,
    ((unknown_command_exit_code {} okCommands "mcp-publisher" "deploy" ["-h"]
      (by decide) (by decide)).2 (by decide)).1⟩

/-- C2: whenever `main` dispatches to a subcommand, the exit code is 0 exactly
when that subcommand returned no error, and it is 1 when it returned one. -/
theorem exit_code_iff_no_error (b : BuildInfo) (cs : Commands) (osArgs : List String)
    (c : Call) (hc : Event.call c ∈ (main b cs osArgs).events) :
    ((main b cs osArgs).exitCode = 0 ↔ cs.run c = none) ∧
      (cs.run c ≠ none → (main b cs osArgs).exitCode = 1) := by
  obtain ⟨_, _, _, _, _, _, _, hm⟩ := main_call_inv b cs osArgs c hc
  rw [hm]
  cases cs.run c <;> simp [finish]

theorem exit_code_iff_no_error_witness :
    Event.call (Call.PublishCommand ["--dry-run"]) ∈
        (main {} failingCommands ["mcp-publisher", "publish", "--dry-run"]).events ∧
      (((main {} failingCommands ["mcp-publisher", "publish", "--dry-run"]).exitCode = 0 ↔
          failingCommands.run (Call.PublishCommand ["--dry-run"]) = none) ∧
        (failingCommands.run (Call.PublishCommand ["--dry-run"]) ≠ none →
          (main {} failingCommands ["mcp-publisher", "publish", "--dry-run"]).exitCode = 1)) :=
  ⟨by decide, exit_code_iff_no_error {} failingCommands
    ["mcp-publisher", "publish", "--dry-run"] (Call.PublishCommand ["--dry-run"]) (by decide)⟩

/-- C3: when the first argument after the program name is one of `--version`,
`-v`, `version`, `--help`, `-h`, `help`, `main` calls no subcommand and exits with
code 0, whatever follows. -/
theorem global_token_short_circuits (b : BuildInfo) (cs : Commands) (prog cmd : String)
    (rest : List String) (hg : cmd ∈ globalTokens) :
    calls (main b cs (prog :: cmd :: rest)).events = [] ∧
      (main b cs (prog :: cmd :: rest)).exitCode = 0 := by
  rw [main_cons]
  simp only [globalTokens, List.mem_cons, List.mem_singleton, List.not_mem_nil, or_false] at hg
  rcases hg with h | h | h | h | h | h <;> subst h <;>
    simp [calls, calls_printUsage]

theorem global_token_short_circuits_witness :
    ("--version" ∈ globalTokens ∧
        calls (main {} failingCommands ["mcp-publisher", "--version", "publish"]).events = [] ∧
        (main {} failingCommands ["mcp-publisher", "--version", "publish"]).exitCode = 0) ∧
      ("help" ∈ globalTokens ∧
        calls (main {} failingCommands
          ["mcp-publisher", "help", "login", "github-at"]).events = [] ∧
        (main {} failingCommands ["mcp-publisher", "help", "login", "github-at"]).exitCode = 0) :=
  ⟨⟨by decide, global_token_short_circuits {} failingCommands "mcp-publisher" "--version"
      ["publish"] (by decide)⟩,
    ⟨by decide, global_token_short_circuits {} failingCommands "mcp-publisher" "help"
      ["login", "github-at"] (by decide)⟩⟩

/-- C4: `main` calls at most one subcommand, and a call it makes is the one
named by the first argument: `init` calls `InitCommand` and `logout` calls
`LogoutCommand` (neither takes arguments), `login` calls `LoginCommand` and
`publish` calls `PublishCommand` on exactly the arguments after the verb. -/
theorem dispatch_at_most_one (b : BuildInfo) (cs : Commands) (osArgs : List String) :
    (calls (main b cs osArgs).events).length ≤ 1 ∧
      ∀ c, c ∈ calls (main b cs osArgs).events →
        (osArgs[1]? = some "init" ∧ c = Call.InitCommand) ∨
        (osArgs[1]? = some "login" ∧ c = Call.LoginCommand (osArgs.drop 2)) ∨
        (osArgs[1]? = some "logout" ∧ c = Call.LogoutCommand) ∨
        (osArgs[1]? = some "publish" ∧ c = Call.PublishCommand (osArgs.drop 2)) := by
  constructor
  · rcases osArgs_cases osArgs with h | ⟨prog, cmd, args, rfl⟩
    · simp [main_short b cs osArgs h, calls_printUsage]
    · rw [main_cons]
      split_ifs <;>
        simp [calls, calls_printUsage, calls_printCommandHelp, calls_finish]
  · intro c hc
    obtain ⟨prog, cmd, args, rfl, _, _, hd, _⟩ :=
      main_call_inv b cs osArgs c (mem_calls.mp hc)
    simpa using hd

theorem dispatch_at_most_one_witness :
    (calls (main {} okCommands ["mcp-publisher", "publish", "--file", "s.json"]).events).length
        ≤ 1 ∧
      Call.PublishCommand ["--file", "s.json"] ∈
        calls (main {} okCommands ["mcp-publisher", "publish", "--file", "s.json"]).events ∧
      ((["mcp-publisher", "publish", "--file", "s.json"][1]? = some "init" ∧
          Call.PublishCommand ["--file", "s.json"] = Call.InitCommand) ∨
        (["mcp-publisher", "publish", "--file", "s.json"][1]? = some "login" ∧
          Call.PublishCommand ["--file", "s.json"] =
            Call.LoginCommand (["mcp-publisher", "publish", "--file", "s.json"].drop 2)) ∨
        (["mcp-publisher", "publish", "--file", "s.json"][1]? = some "logout" ∧
          Call.PublishCommand ["--file", "s.json"] = Call.LogoutCommand) ∨
        (["mcp-publisher", "publish", "--file", "s.json"][1]? = some "publish" ∧
          Call.PublishCommand ["--file", "s.json"] =
            Call.PublishCommand (["mcp-publisher", "publish", "--file", "s.json"].drop 2))) :=
  ⟨(dispatch_at_most_one {} okCommands ["mcp-publisher", "publish", "--file", "s.json"]).1,
    by decide,
    (dispatch_at_most_one {} okCommands ["mcp-publisher", "publish", "--file", "s.json"]).2
      (Call.PublishCommand ["--file", "s.json"]) (by decide)⟩

/-- C5: an error returned by the dispatched subcommand is surfaced: after the
call `main` does exactly one more thing, writing the line "Error: " followed by
the error's message and a newline to standard error, and then exits with code 1. -/
theorem error_is_surfaced (b : BuildInfo) (cs : Commands) (osArgs : List String)
    (c : Call) (e : GoError) (hc : Event.call c ∈ (main b cs osArgs).events)
    (he : cs.run c = some e) :
    (main b cs osArgs).events = [Event.call c, Event.stderr ("Error: " ++ e.msg ++ "\n")] ∧
      stderrText (main b cs osArgs).events = ("Error: " ++ e.msg ++ "\n").data ∧
      stdoutText (main b cs osArgs).events = [] ∧
      (main b cs osArgs).exitCode = 1 := by
  obtain ⟨_, _, _, _, _, _, _, hm⟩ := main_call_inv b cs osArgs c hc
  rw [hm, he]
  simp [finish, stderrText, stdoutText]

theorem error_is_surfaced_witness :
    Event.call (Call.LoginCommand ["github-at"]) ∈
        (main {} failingCommands ["mcp-publisher", "login", "github-at"]).events ∧
      failingCommands.run (Call.LoginCommand ["github-at"]) = some ⟨"no token"⟩ ∧
      ((main {} failingCommands ["mcp-publisher", "login", "github-at"]).events =
          [Event.call (Call.LoginCommand ["github-at"]),
            Event.stderr ("Error: " ++ (GoError.mk "no token").msg ++ "\n")] ∧
        stderrText (main {} failingCommands ["mcp-publisher", "login", "github-at"]).events =
          ("Error: " ++ (GoError.mk "no token").msg ++ "\n").data ∧
        stdoutText (main {} failingCommands ["mcp-publisher", "login", "github-at"]).events = [] ∧
        (main {} failingCommands ["mcp-publisher", "login", "github-at"]).exitCode = 1) :=
  ⟨by decide, rfl, error_is_surfaced {} failingCommands ["mcp-publisher", "login", "github-at"]
    (Call.LoginCommand ["github-at"]) ⟨"no token"⟩ (by decide) rfl⟩

/-- C6 (as stated, refuted): for `login` and for `publish` the first line of the
help text is not "Usage: mcp-publisher " followed by the verb alone; the line
goes on (with " <method>" and " [options]"). -/
theorem command_help_first_line_goes_on :
    "login" ∈ verbs ∧ "publish" ∈ verbs ∧ "--help" ∈ helpTokens ∧
      firstLine (stdoutText (main {} okCommands ["mcp-publisher", "login", "--help"]).events) ≠
        ("Usage: mcp-publisher " ++ "login").data ∧
      firstLine (stdoutText (main {} okCommands ["mcp-publisher", "publish", "--help"]).events) ≠
        ("Usage: mcp-publisher " ++ "publish").data := by
  decide

/-- C6 (amended): for a verb `c` among init, login, logout, publish and an
argument vector `prog, c, h, ...` with `h` one of `--help`, `-h`, `help`, `main`
calls no subcommand, exits with code 0 and writes, on standard output only, the
help text of `c`, not the general usage text. Its first line begins with
"Usage: mcp-publisher " followed by `c`: it is "Usage: mcp-publisher init",
"Usage: mcp-publisher login <method>", "Usage: mcp-publisher logout" and
"Usage: mcp-publisher publish [options]", and the lines after it are those of
main.go:74-135. -/
theorem command_help (b : BuildInfo) (cs : Commands) (prog c h : String) (rest : List String)
    (hc : c ∈ verbs) (hh : h ∈ helpTokens) :
    calls (main b cs (prog :: c :: h :: rest)).events = [] ∧
      (main b cs (prog :: c :: h :: rest)).exitCode = 0 ∧
      (main b cs (prog :: c :: h :: rest)).events = printCommandHelp c ∧
      ("Usage: mcp-publisher " ++ c).data <+:
        firstLine (stdoutText (main b cs (prog :: c :: h :: rest)).events) ∧
      stdoutText (main b cs (prog :: c :: h :: rest)).events ≠ stdoutText printUsage ∧
      stderrText (main b cs (prog :: c :: h :: rest)).events = [] ∧
      firstLine (stdoutText (main b cs (prog :: c :: h :: rest)).events) ≠
        "MCP Registry Publisher Tool".data ∧
      (c = "init" → outputLines (main b cs (prog :: c :: h :: rest)).events =
        [ "Usage: mcp-publisher init",
          "",
          "Description:",
          "  Create a server.json file template in the current directory.",
          "  This template includes all required and optional fields for",
          "  publishing your MCP server to the registry.",
          "",
          "Example:",
          "  mcp-publisher init",
          "",
          "The generated server.json file should be customized with your",
          "server's specific details before publishing." ]) ∧
      (c = "login" → outputLines (main b cs (prog :: c :: h :: rest)).events =
        [ "Usage: mcp-publisher login <method>",
          "",
          "Description:",
          "  Authenticate with the registry using one of the supported",
          "  authentication methods. Authentication is required before",
          "  you can publish servers to the registry.",
          "",
          "Available Methods:",
          "  github-at        - GitHub Personal Access Token",
          "  github-oidc      - GitHub OIDC (for CI/CD environments)",
          "  http             - HTTP-based authentication",
          "  dns              - DNS-based authentication",
          "  none             - No authentication (for testing)",
          "",
          "Example:",
          "  mcp-publisher login github-at",
          "",
          "Credentials are securely stored locally for subsequent publishes." ]) ∧
      (c = "logout" → outputLines (main b cs (prog :: c :: h :: rest)).events =
        [ "Usage: mcp-publisher logout",
          "",
          "Description:",
          "  Clear saved authentication credentials from the local system.",
          "  This removes all stored authentication tokens and sessions.",
          "",
          "Example:",
          "  mcp-publisher logout",
          "",
          "After logging out, you will need to run 'mcp-publisher login'",
          "again before publishing." ]) ∧
      (c = "publish" → outputLines (main b cs (prog :: c :: h :: rest)).events =
        [ "Usage: mcp-publisher publish [options]",
          "",
          "Description:",
          "  Publish your MCP server to the registry using the server.json",
          "  file in the current directory. You must be authenticated before",
          "  publishing (see 'mcp-publisher login').",
          "",
          "Options:",
          "  --file <path>    - Specify a custom path to server.json",
          "  --dry-run        - Validate the server.json without publishing",
          "",
          "Example:",
          "  mcp-publisher publish",
          "  mcp-publisher publish --file ./my-server.json",
          "  mcp-publisher publish --dry-run",
          "",
          "The server.json file must conform to the registry schema.",
          "Run 'mcp-publisher init' to generate a template." ]) := by
  have hm : main b cs (prog :: c :: h :: rest) = ⟨printCommandHelp c, 0⟩ := by
    rw [main_cons]
    simp only [verbs, List.mem_cons, List.mem_singleton, List.not_mem_nil, or_false] at hc
    simp only [helpTokens, List.mem_cons, List.mem_singleton, List.not_mem_nil, or_false] at hh
    rcases hc with hc | hc | hc | hc <;> subst hc <;>
      rcases hh with hh | hh | hh <;> subst hh <;> simp
  rw [hm]
  refine ⟨calls_printCommandHelp c, rfl, rfl, ?_⟩
  simp only [verbs, List.mem_cons, List.mem_singleton, List.not_mem_nil, or_false] at hc
  rcases hc with hc | hc | hc | hc <;> subst hc <;> decide

theorem command_help_witness :
    "login" ∈ verbs ∧ "-h" ∈ helpTokens ∧
      calls (main {} failingCommands ["mcp-publisher", "login", "-h", "x"]).events = [] ∧
      (main {} failingCommands ["mcp-publisher", "login", "-h", "x"]).exitCode = 0 ∧
      outputLines (main {} failingCommands ["mcp-publisher", "login", "-h", "x"]).events =
        [ "Usage: mcp-publisher login <method>",
          "",
          "Description:",
          "  Authenticate with the registry using one of the supported",
          "  authentication methods. Authentication is required before",
          "  you can publish servers to the registry.",
          "",
          "Available Methods:",
          "  github-at        - GitHub Personal Access Token",
          "  github-oidc      - GitHub OIDC (for CI/CD environments)",
          "  http             - HTTP-based authentication",
          "  dns              - DNS-based authentication",
          "  none             - No authentication (for testing)",
          "",
          "Example:",
          "  mcp-publisher login github-at",
          "",
          "Credentials are securely stored locally for subsequent publishes." ] :=
  ⟨by decide, by decide,
    (command_help {} failingCommands "mcp-publisher" "login" "-h" ["x"]
      (by decide) (by decide)).1,
    (command_help {} failingCommands "mcp-publisher" "login" "-h" ["x"]
      (by decide) (by decide)).2.1,
    (command_help {} failingCommands "mcp-publisher" "login" "-h" ["x"]
      (by decide) (by decide)).2.2.2.2.2.2.2.2.1 rfl⟩

/-- C7: the entries that `printCommandHelp "login"` writes under "Available
Methods:" name exactly the authentication methods of the specification,
github-at, github-oidc, http, dns and none, each once and nothing else. -/
theorem login_help_lists_auth_methods :
    loginHelpMethods = specAuthMethods ∧
      ∀ m, m ∈ loginHelpMethods ↔
        m = "github-at" ∨ m = "github-oidc" ∨ m = "http" ∨ m = "dns" ∨ m = "none" := by
  have h : loginHelpMethods = specAuthMethods := by decide
  refine ⟨h, fun m => ?_⟩
  rw [h]
  simp [specAuthMethods]

/-- C8: `main` calls a subcommand exactly when the argument vector has a first
argument that is one of init, login, logout, publish and the argument right after
it, if there is one, is none of `--help`, `-h`, `help`. Help and version tokens
further on are passed through: `publish --file x --help` and `publish --version`
both call `PublishCommand` on those arguments. -/
theorem subcommand_invoked_iff (b : BuildInfo) (cs : Commands) (osArgs : List String) :
    (calls (main b cs osArgs).events ≠ [] ↔
        ∃ prog cmd args, osArgs = prog :: cmd :: args ∧ cmd ∈ verbs ∧
          ¬ ∃ a, args.head? = some a ∧ a ∈ helpTokens) ∧
      calls (main b cs ["mcp-publisher", "publish", "--file", "x", "--help"]).events =
        [Call.PublishCommand ["--file", "x", "--help"]] ∧
      calls (main b cs ["mcp-publisher", "publish", "--version"]).events =
        [Call.PublishCommand ["--version"]] := by
  refine ⟨⟨fun hne => ?_, ?_⟩, ?_, ?_⟩
  · obtain ⟨c, hc⟩ := List.exists_mem_of_ne_nil _ hne
    obtain ⟨prog, cmd, args, rfl, _, hn, hd, _⟩ :=
      main_call_inv b cs osArgs c (mem_calls.mp hc)
    refine ⟨prog, cmd, args, rfl, ?_, hn⟩
    rcases hd with ⟨h, _⟩ | ⟨h, _⟩ | ⟨h, _⟩ | ⟨h, _⟩ <;> simp [verbs, h]
  · rintro ⟨prog, cmd, args, rfl, hv, hn⟩
    rw [main_cons, ← help_guard_iff] at *
    simp only [verbs, List.mem_cons, List.mem_singleton, List.not_mem_nil, or_false] at hv
    rcases hv with h | h | h | h <;> subst h <;> simp [hn, calls_finish]
  · simp [main_cons, calls_finish]
  · simp [main_cons, calls_finish]

/-- C9: started with no argument after the program name (an argument vector of
fewer than two elements), `main` writes the general usage text (the twelve lines
of main.go:142-153, beginning "MCP Registry Publisher Tool") to standard output
and nothing else, calls no subcommand, and exits with code 1. -/
theorem no_command_prints_usage (b : BuildInfo) (cs : Commands) (osArgs : List String)
    (h : osArgs.length < 2) :
    (main b cs osArgs).events = printUsage ∧
      stdoutText (main b cs osArgs).events = stdoutText printUsage ∧
      stderrText (main b cs osArgs).events = [] ∧
      calls (main b cs osArgs).events = [] ∧
      (main b cs osArgs).exitCode = 1 ∧
      firstLine (stdoutText (main b cs osArgs).events) = "MCP Registry Publisher Tool".data ∧
      outputLines (main b cs osArgs).events =
        [ "MCP Registry Publisher Tool",
          "",
          "Usage:",
          "  mcp-publisher <command> [arguments]",
          "",
          "Commands:",
          "  init          Create a server.json file template",
          "  login         Authenticate with the registry",
          "  logout        Clear saved authentication",
          "  publish       Publish server.json to the registry",
          "",
          "Use 'mcp-publisher <command> --help' for more information about a command." ] ∧
      (main b cs osArgs).events.length = 12 ∧
      ∀ ev, ev ∈ (main b cs osArgs).events → ∃ s, ev = Event.stdout s := by
  rw [main_short b cs osArgs h]
  refine ⟨rfl, rfl, by decide, calls_printUsage, rfl, by decide, by decide, by decide, ?_⟩
  intro ev hev
  simp only [printUsage, Fprintln, FprintlnEmpty, List.mem_cons, List.mem_singleton,
    List.not_mem_nil, or_false] at hev
  rcases hev with h | h | h | h | h | h | h | h | h | h | h | h <;> exact ⟨_, h⟩

theorem no_command_prints_usage_witness :
    ["mcp-publisher"].length < 2 ∧
      ((main {} failingCommands ["mcp-publisher"]).events = printUsage ∧
      stdoutText (main {} failingCommands ["mcp-publisher"]).events = stdoutText printUsage ∧
      stderrText (main {} failingCommands ["mcp-publisher"]).events = [] ∧
      calls (main {} failingCommands ["mcp-publisher"]).events = [] ∧
      (main {} failingCommands ["mcp-publisher"]).exitCode = 1 ∧
      firstLine (stdoutText (main {} failingCommands ["mcp-publisher"]).events) =
        "MCP Registry Publisher Tool".data) :=
  ⟨by decide,
    (no_command_prints_usage {} failingCommands ["mcp-publisher"] (by decide)).1,
    (no_command_prints_usage {} failingCommands ["mcp-publisher"] (by decide)).2.1,
    (no_command_prints_usage {} failingCommands ["mcp-publisher"] (by decide)).2.2.1,
    (no_command_prints_usage {} failingCommands ["mcp-publisher"] (by decide)).2.2.2.1,
    (no_command_prints_usage {} failingCommands ["mcp-publisher"] (by decide)).2.2.2.2.1,
    (no_command_prints_usage {} failingCommands ["mcp-publisher"] (by decide)).2.2.2.2.2.1⟩

end Publisher
